import Mathlib

/-!
Shallow embedding of the register-access, meta-deserialization, byte-reader
and AST-query parts of the sigma-rust ErgoTree interpreter, together with
proofs about them.

Sources embedded:
- ergotree-interpreter/src/eval/deserialize_register.rs
- ergotree-interpreter/src/eval/extract_reg_as.rs
- ergotree-ir/src/serialization/sigma_byte_reader.rs
- ergo-lib/src/ast/expr.rs
- ergo-rest/src/api/node.rs (the nipopow endpoint guard)

Collaborator types that live outside the embedded files (SType, Value,
Constant, ErgoBox, the mir Expr interface, ConstantStore, ValDefTypeStore,
RegisterId conversion) are modelled from the spec, as noted on each
definition.
-/

/-- Modelled from the spec: the closed enumeration of value/type tags
(type-tag boundary, spec section 6), with the constructors the embedded code
mentions: byte, boolean, int, long, collections, options, box, any. -/
inductive SType : Type where
  | SAny : SType
  | SBoolean : SType
  | SByte : SType
  | SInt : SType
  | SLong : SType
  | SColl : SType → SType
  | SOption : SType → SType
  | SBox : SType
deriving DecidableEq, Repr

mutual

/-- Modelled from the spec: the closed, tagged union of runtime values
(spec section 2, value model): booleans, integers of fixed widths, byte
sequences, collections, options, boxes. -/
inductive Value : Type where
  | bool : Bool → Value
  | int : Int → Value
  | long : Int → Value
  | byteColl : List Int → Value
  | coll : List Value → Value
  | opt : Option Value → Value
  | box : ErgoBox → Value

/-- Modelled from the spec: a Constant is a value paired with its type tag
(spec section 3). -/
inductive Constant : Type where
  | mk : SType → Value → Constant

/-- Modelled from the spec: the external box collaborator exposing
get_register(index) -> Result(Option Constant, Err) (spec section 6,
register model boundary); the box is represented by that lookup function. -/
inductive ErgoBox : Type where
  | mk : (Nat → Except String (Option Constant)) → ErgoBox

end

/-- Type tag of a Constant (field tpe in the source). -/
def Constant.tpe : Constant → SType
  | .mk t _ => t

/-- Value of a Constant (field v in the source). -/
def Constant.v : Constant → Value
  | .mk _ v => v

/-- The box collaborator lookup: Ok none for absent, Ok (some c) for
present, Err only for lookup-layer failures (spec section 6). -/
def ErgoBox.get_register : ErgoBox → Nat → Except String (Option Constant)
  | .mk f, i => f i

/-- Modelled from the spec: evaluation error taxonomy (spec section 7).
Messages carry the fixed text of the corresponding format string in the
source; interpolated debug payloads are elided since only the error kind is
ever inspected. -/
inductive EvalError : Type where
  | RegisterIdOutOfBounds : String → EvalError
  | NotFound : String → EvalError
  | UnexpectedExpr : String → EvalError
  | TryExtractFrom : String → EvalError
  | ParsingError : String → EvalError
deriving DecidableEq, Repr

/-- Modelled from the spec: Env, the runtime mapping of local-binding
identifiers to evaluated values (spec section 3). The embedded files only
thread it through unchanged. -/
def Env : Type := List (Nat × Value)

/-- Modelled from the spec: the read-only transaction-validation context
(spec section 6, context boundary): current height and the self box. -/
structure Context : Type where
  height : Nat
  self_box : ErgoBox

/-- Modelled from the spec: EvalContext holds a reference to the
transaction-validation context (spec section 3). -/
structure EvalContext : Type where
  ctx : Context

/-- Modelled from the spec: the evaluator interface of an AST node
(spec section 4.3): a node answers tpe() and evaluate(env, ctx), producing
a value or failing with a typed error. The embedded files consume exactly
these two capabilities of the mir Expr type. -/
structure Expr : Type where
  tpe : SType
  eval : Env → EvalContext → Except EvalError Value

/-- Modelled from the spec: conversion of the raw register index (an i8 in
the source) to a RegisterId; the valid range is 0 to 9 (spec section 3:
registers are indexed 0 to 9), anything else fails. -/
def RegisterId.tryFrom (i : Int) : Option Nat :=
  if 0 ≤ i ∧ i ≤ 9 then some i.toNat else none

/-- try_extract_into Vec u8 on a Value: succeeds exactly on a byte
collection (spec section 2 value model; failure converts into an eval
error as in the source). -/
def Value.tryExtractBytes : Value → Except EvalError (List Int)
  | .byteColl bs => .ok bs
  | _ => .error (.TryExtractFrom "expected byte collection")

/-- try_extract_into Arc ErgoBox on a Value: succeeds exactly on a box. -/
def Value.tryExtractBox : Value → Except EvalError ErgoBox
  | .box b => .ok b
  | _ => .error (.TryExtractFrom "expected ErgoBox")

/-- DeserializeRegister node
(ergotree-ir mir, fields as used by deserialize_register.rs):
raw register index (i8 in the source), declared expected type, optional
default expression. -/
structure DeserializeRegister : Type where
  reg : Int
  tpe : SType
  default : Option Expr

/-- eval_default from deserialize_register.rs: check the default
expression static type against the declared type, then evaluate it. -/
def eval_default (deserialize_reg_tpe : SType) (default_expr : Expr)
    (env : Env) (ctx : EvalContext) : Except EvalError Value :=
  if default_expr.tpe ≠ deserialize_reg_tpe then
    .error (.UnexpectedExpr
      "DeserializeRegister: expected default expr to have type")
  else
    default_expr.eval env ctx

/-- DeserializeRegister::eval from deserialize_register.rs.
parseBytes stands for Expr::sigma_parse_bytes, the serialization-protocol
entry point, which lives outside the embedded files; it is passed as an
explicit collaborator so that independence from it expresses that no parse
is attempted. -/
def DeserializeRegister.eval
    (parseBytes : List Int → Except String Expr)
    (s : DeserializeRegister) (env : Env) (ctx : EvalContext) :
    Except EvalError Value :=
  match RegisterId.tryFrom s.reg with
  | none => .error (.RegisterIdOutOfBounds "register index is out of bounds")
  | some id =>
    match ctx.ctx.self_box.get_register id with
    | .ok (some c) =>
      if c.tpe ≠ SType.SColl SType.SByte then
        .error (.UnexpectedExpr
          "DeserializeRegister: expected value to have type SColl(SByte)")
      else
        match c.v.tryExtractBytes with
        | .error e => .error e
        | .ok bytes =>
          match parseBytes bytes with
          | .error e => .error (.ParsingError e)
          | .ok expr =>
            if expr.tpe ≠ s.tpe then
              .error (.UnexpectedExpr
                "DeserializeRegister: expected deserialized expr to have type")
            else
              expr.eval env ctx
    | .ok none =>
      match s.default with
      | some default_expr => eval_default s.tpe default_expr env ctx
      | none => .error (.NotFound "DeserializeRegister: register is empty")
    | .error _ =>
      match s.default with
      | some default_expr => eval_default s.tpe default_expr env ctx
      | none => .error (.NotFound
          "DeserializeRegister: failed to get the register id")

/-- ExtractRegisterAs node (ergotree-ir mir, fields as used by
extract_reg_as.rs): input expression, raw register index (i8 in the
source), element type. -/
structure ExtractRegisterAs : Type where
  input : Expr
  register_id : Int
  elem_tpe : SType

/-- ExtractRegisterAs::eval from extract_reg_as.rs: evaluate the input to
a box, range-check the register index, ask the box for the register, wrap
the optional Constant value as an optional Value. -/
def ExtractRegisterAs.eval (s : ExtractRegisterAs) (env : Env)
    (ctx : EvalContext) : Except EvalError Value :=
  match s.input.eval env ctx with
  | .error e => .error e
  | .ok v =>
    match v.tryExtractBox with
    | .error e => .error e
    | .ok ir_box =>
      match RegisterId.tryFrom s.register_id with
      | none =>
        .error (.RegisterIdOutOfBounds "register index is out of bounds")
      | some id =>
        match ir_box.get_register id with
        | .error _ => .error (.NotFound "Error getting the register id")
        | .ok reg_val_opt => .ok (.opt (reg_val_opt.map (fun c => c.v)))

/-- Modelled from the spec: ConstantStore, an ordered indexable sequence of
Constants populated before parsing (spec section 3). -/
structure ConstantStore : Type where
  constants : List Constant

/-- ValDefTypeStore from val_def_type_store.rs (modelled from the spec: a
mapping from local-binding identifier to declared type tag, spec
section 3). -/
structure ValDefTypeStore : Type where
  store : List (Nat × SType)
deriving DecidableEq

/-- ValDefTypeStore::new: a fresh, empty store. -/
def ValDefTypeStore.new : ValDefTypeStore :=
  { store := [] }

/-- SigmaByteReader from sigma_byte_reader.rs: underlying byte source,
constant store, substitution mode flag, bound-variable type store. -/
structure SigmaByteReader (R : Type) : Type where
  inner : R
  constant_store : ConstantStore
  substitute_placeholders : Bool
  val_def_type_store : ValDefTypeStore

/-- SigmaByteReader::new: preserve mode, fresh ValDefTypeStore. -/
def SigmaByteReader.new {R : Type} (pr : R) (constant_store : ConstantStore) :
    SigmaByteReader R :=
  { inner := pr
    constant_store := constant_store
    substitute_placeholders := false
    val_def_type_store := ValDefTypeStore.new }

/-- SigmaByteReader::new_with_substitute_placeholders: substitute mode,
fresh ValDefTypeStore. -/
def SigmaByteReader.new_with_substitute_placeholders {R : Type} (pr : R)
    (constant_store : ConstantStore) : SigmaByteReader R :=
  { inner := pr
    constant_store := constant_store
    substitute_placeholders := true
    val_def_type_store := ValDefTypeStore.new }

/-- SigmaByteRead::set_constant_store for SigmaByteReader: replace the
constant store field. -/
def SigmaByteReader.set_constant_store {R : Type} (r : SigmaByteReader R)
    (constant_store : ConstantStore) : SigmaByteReader R :=
  { r with constant_store := constant_store }

namespace Ast

/-!
Embedding of ergo-lib/src/ast/expr.rs (the older ergo-lib AST, a distinct
type from the mir Expr interface above). The sibling ast modules (bin_op,
global_vars, ...) are not among the embedded files; their payloads and
per-kind opcode constants are modelled from the spec (section 4.1: every
variant has a fixed, stable opcode). A todo macro invocation in the source
(a panic) is modelled as Option.none.
-/

/-- Modelled from the spec: predefined global variables (spec
section 4.1), each with its fixed opcode. -/
inductive GlobalVars : Type where
  | height : GlobalVars
  | selfBox : GlobalVars
deriving DecidableEq, Repr

/-- GlobalVars::op_code, a fixed opcode per variant (modelled from the
spec; concrete numeric values are representative fixed constants). -/
def GlobalVars.op_code : GlobalVars → Nat
  | .height => 163
  | .selfBox => 167

/-- Modelled from the spec: binary operator kinds (spec section 4.1),
each with a fixed opcode. -/
inductive BinOpKind : Type where
  | eq : BinOpKind
  | neq : BinOpKind
deriving DecidableEq, Repr

/-- BinOp::op_code, a fixed opcode per operator kind (modelled from the
spec; concrete numeric values are representative fixed constants). -/
def BinOpKind.op_code : BinOpKind → Nat
  | .eq => 147
  | .neq => 148

/-- Modelled from the spec: predefined/global function kinds (spec
section 4.1). -/
inductive PredefFuncKind : Type where
  | sigmaProp : PredefFuncKind
deriving DecidableEq, Repr

/-- The Expr variant type of ergo-lib/src/ast/expr.rs: a closed set of
node variants, each owning its operand sub-expressions (payload shapes of
the sibling ast modules modelled from the spec). The ProperyCall spelling
follows the source. -/
inductive Expr : Type where
  | const : Constant → Expr
  | constPlaceholder : Nat → SType → Expr
  | predefFunc : PredefFuncKind → List Expr → Expr
  | fold : Expr → Expr → Expr → Expr
  | context : Expr
  | globalVars : GlobalVars → Expr
  | methodCall : Expr → Nat → List Expr → Expr
  | properyCall : Expr → Nat → Expr
  | binOp : BinOpKind → Expr → Expr → Expr
  | optionGet : Expr → Expr
  | extractRegisterAs : Expr → Int → SType → Expr

/-- Fixed opcode constants consumed by Expr::op_code (modelled from the
spec: a fixed byte identifying each node kind; concrete numeric values are
representative fixed constants). -/
def OpCode.CONSTANT_PLACEHOLDER : Nat := 3

/-- Fixed opcode constant for method call nodes (modelled from the spec). -/
def OpCode.METHOD_CALL : Nat := 184

/-- Fixed opcode constant for property call nodes (modelled from the
spec). -/
def OpCode.PROPERTY_CALL : Nat := 183

/-- Fixed opcode constant for the context node (from the source:
OpCode::CONTEXT; numeric value a representative fixed constant). -/
def OpCode.CONTEXT : Nat := 134

/-- Fixed opcode constant for option-get nodes (modelled from the spec). -/
def OpCode.OPTION_GET : Nat := 116

/-- Fixed opcode constant for register-extraction nodes (modelled from the
spec). -/
def OpCode.EXTRACT_REGISTER_AS : Nat := 101

/-- Expr::op_code from ergo-lib/src/ast/expr.rs. The Const arm and the
catch-all arm (reached by PredefFunc and Fold) are todo macro invocations
in the source, i.e. panics, modelled as none. -/
def Expr.op_code : Expr → Option Nat
  | .const _ => none
  | .constPlaceholder _ _ => some OpCode.CONSTANT_PLACEHOLDER
  | .globalVars v => some v.op_code
  | .methodCall _ _ _ => some OpCode.METHOD_CALL
  | .properyCall _ _ => some OpCode.PROPERTY_CALL
  | .context => some OpCode.CONTEXT
  | .optionGet _ => some OpCode.OPTION_GET
  | .extractRegisterAs _ _ _ => some OpCode.EXTRACT_REGISTER_AS
  | .binOp op _ _ => some op.op_code
  | .predefFunc _ _ => none
  | .fold _ _ _ => none

/-- Expr::tpe from ergo-lib/src/ast/expr.rs: the Const arm returns the
type carried by the Constant; every other arm is a todo macro invocation
in the source, i.e. a panic, modelled as none. -/
def Expr.tpe : Expr → Option SType
  | .const c => some c.tpe
  | _ => none

end Ast

/-- Modelled from the spec: the REST client error type, with the variant
the embedded guard produces plus a representative transport-failure
variant. -/
inductive NodeError : Type where
  | InvalidNumericalUrlSegment : NodeError
  | RequestError : String → NodeError
deriving DecidableEq, Repr

/-- get_nipopow_proof_by_header_id from ergo-rest/src/api/node.rs.
The network side (URL join against the node address, the GET request and
the JSON decode) lives behind the net collaborator, which receives the
path string the function builds; the zero-segment guard runs first. -/
def get_nipopow_proof_by_header_id {α : Type}
    (net : String → Except NodeError α)
    (min_chain_length : Nat) (suffix_len : Nat) (header_id : String) :
    Except NodeError α :=
  if min_chain_length = 0 ∨ suffix_len = 0 then
    .error .InvalidNumericalUrlSegment
  else
    net ("nipopow/proof/" ++ toString min_chain_length ++ "/" ++
      toString suffix_len ++ "/" ++ header_id)

/-! Concrete fixtures used by witnesses and counterexamples. -/

/-- Empty runtime environment. -/
def envNil : Env := []

/-- A mir expression of type SInt that evaluates to the integer 1. -/
def exprIntOne : Expr :=
  { tpe := SType.SInt, eval := fun _ _ => .ok (.int 1) }

/-- A mir expression of type SBoolean that evaluates to true. -/
def exprBoolTrue : Expr :=
  { tpe := SType.SBoolean, eval := fun _ _ => .ok (.bool true) }

/-- A box whose every register lookup returns the given outcome. -/
def boxConst (r : Except String (Option Constant)) : ErgoBox :=
  ErgoBox.mk (fun _ => r)

/-- An eval context whose self box always answers the given outcome. -/
def ctxWith (r : Except String (Option Constant)) : EvalContext :=
  { ctx := { height := 0, self_box := boxConst r } }

/-- A parser collaborator that always fails. -/
def noParse : List Int → Except String Expr :=
  fun _ => .error "unused"

/-- A parser collaborator that always yields exprIntOne. -/
def parseIntOne : List Int → Except String Expr :=
  fun _ => .ok exprIntOne

/-- C1: if the self box holds a present register at the node index whose
Constant type is not SColl(SByte), DeserializeRegister eval returns an
UnexpectedExpr error, uniformly in the parser collaborator (so no parse of
the register bytes is attempted). -/
theorem deserialize_register_wrong_payload_type
    (s : DeserializeRegister) (env : Env) (ctx : EvalContext)
    (id : Nat) (c : Constant)
    (hid : RegisterId.tryFrom s.reg = some id)
    (hreg : ctx.ctx.self_box.get_register id = Except.ok (some c))
    (htpe : c.tpe ≠ SType.SColl SType.SByte) :
    ∀ parseBytes, DeserializeRegister.eval parseBytes s env ctx =
      Except.error (EvalError.UnexpectedExpr
        "DeserializeRegister: expected value to have type SColl(SByte)") := by
  intro parseBytes
  unfold DeserializeRegister.eval
  simp only [hid, hreg, htpe, if_pos, ne_eq, not_false_eq_true, if_true]

theorem deserialize_register_wrong_payload_type_witness :
    DeserializeRegister.eval noParse
        { reg := 4, tpe := SType.SBoolean, default := none } envNil
        (ctxWith (.ok (some (Constant.mk SType.SInt (Value.int 1))))) =
      Except.error (EvalError.UnexpectedExpr
        "DeserializeRegister: expected value to have type SColl(SByte)") :=
  deserialize_register_wrong_payload_type
    { reg := 4, tpe := SType.SBoolean, default := none } envNil
    (ctxWith (.ok (some (Constant.mk SType.SInt (Value.int 1)))))
    4 (Constant.mk SType.SInt (Value.int 1))
    (by decide) rfl (by decide) noParse

/-- C2: if the register is present with a byte-sequence payload whose
bytes parse to expression e, then a static-type mismatch between e and the
node declared type fails with UnexpectedExpr, and a match evaluates e
against the same env and ctx and returns its result. -/
theorem deserialize_register_parsed_expr_type_check
    (s : DeserializeRegister) (env : Env) (ctx : EvalContext)
    (id : Nat) (c : Constant) (bs : List Int) (e : Expr)
    (parseBytes : List Int → Except String Expr)
    (hid : RegisterId.tryFrom s.reg = some id)
    (hreg : ctx.ctx.self_box.get_register id = Except.ok (some c))
    (htpe : c.tpe = SType.SColl SType.SByte)
    (hv : c.v = Value.byteColl bs)
    (hparse : parseBytes bs = Except.ok e) :
    (e.tpe ≠ s.tpe → DeserializeRegister.eval parseBytes s env ctx =
      Except.error (EvalError.UnexpectedExpr
        "DeserializeRegister: expected deserialized expr to have type")) ∧
    (e.tpe = s.tpe → DeserializeRegister.eval parseBytes s env ctx =
      e.eval env ctx) := by
  constructor <;> intro h <;>
    · unfold DeserializeRegister.eval
      simp [hid, hreg, htpe, Value.tryExtractBytes, hv, hparse, h]

theorem deserialize_register_parsed_expr_type_check_witness :
    DeserializeRegister.eval parseIntOne
        { reg := 4, tpe := SType.SBoolean, default := none } envNil
        (ctxWith (.ok (some
          (Constant.mk (SType.SColl SType.SByte) (Value.byteColl [1]))))) =
      Except.error (EvalError.UnexpectedExpr
        "DeserializeRegister: expected deserialized expr to have type") ∧
    DeserializeRegister.eval parseIntOne
        { reg := 4, tpe := SType.SInt, default := none } envNil
        (ctxWith (.ok (some
          (Constant.mk (SType.SColl SType.SByte) (Value.byteColl [1]))))) =
      Except.ok (Value.int 1) :=
  ⟨(deserialize_register_parsed_expr_type_check
      { reg := 4, tpe := SType.SBoolean, default := none } envNil
      (ctxWith (.ok (some
        (Constant.mk (SType.SColl SType.SByte) (Value.byteColl [1])))))
      4 (Constant.mk (SType.SColl SType.SByte) (Value.byteColl [1]))
      [1] exprIntOne parseIntOne
      (by decide) rfl rfl rfl rfl).1 (by decide),
   ((deserialize_register_parsed_expr_type_check
      { reg := 4, tpe := SType.SInt, default := none } envNil
      (ctxWith (.ok (some
        (Constant.mk (SType.SColl SType.SByte) (Value.byteColl [1])))))
      4 (Constant.mk (SType.SColl SType.SByte) (Value.byteColl [1]))
      [1] exprIntOne parseIntOne
      (by decide) rfl rfl rfl rfl).2 rfl).trans rfl⟩

/-- C3: when the register lookup yields Ok none (absent) or Err (box-level
error), DeserializeRegister eval behaves identically in either case on the
default: no default fails with NotFound; a default whose static type
differs from the declared type fails with UnexpectedExpr; a default of
matching type yields the default expression evaluation result. -/
theorem deserialize_register_default_path
    (s : DeserializeRegister) (env : Env) (ctx : EvalContext)
    (id : Nat) (parseBytes : List Int → Except String Expr)
    (hid : RegisterId.tryFrom s.reg = some id)
    (hmiss : ctx.ctx.self_box.get_register id = Except.ok none ∨
      ∃ err, ctx.ctx.self_box.get_register id = Except.error err) :
    (s.default = none → ∃ m, DeserializeRegister.eval parseBytes s env ctx =
      Except.error (EvalError.NotFound m)) ∧
    (∀ d, s.default = some d → d.tpe ≠ s.tpe →
      DeserializeRegister.eval parseBytes s env ctx =
        Except.error (EvalError.UnexpectedExpr
          "DeserializeRegister: expected default expr to have type")) ∧
    (∀ d, s.default = some d → d.tpe = s.tpe →
      DeserializeRegister.eval parseBytes s env ctx = d.eval env ctx) := by
  obtain ⟨msg, hred⟩ : ∃ msg, DeserializeRegister.eval parseBytes s env ctx =
      match s.default with
      | some d => eval_default s.tpe d env ctx
      | none => Except.error (EvalError.NotFound msg) := by
    rcases hmiss with hmiss | ⟨err, hmiss⟩
    · exact ⟨"DeserializeRegister: register is empty", by
        unfold DeserializeRegister.eval
        simp only [hid, hmiss]⟩
    · exact ⟨"DeserializeRegister: failed to get the register id", by
        unfold DeserializeRegister.eval
        simp only [hid, hmiss]⟩
  refine ⟨fun hnone => ?_, fun d hd hne => ?_, fun d hd heq => ?_⟩
  · rw [hred, hnone]
    exact ⟨msg, rfl⟩
  · rw [hred, hd]
    simp [eval_default, hne]
  · rw [hred, hd]
    simp [eval_default, heq]

theorem deserialize_register_default_path_witness :
    DeserializeRegister.eval noParse
        { reg := 5, tpe := SType.SBoolean, default := none } envNil
        (ctxWith (.ok none)) =
      Except.error
        (EvalError.NotFound "DeserializeRegister: register is empty") ∧
    DeserializeRegister.eval noParse
        { reg := 5, tpe := SType.SInt, default := some exprBoolTrue } envNil
        (ctxWith (.error "storage failure")) =
      Except.error (EvalError.UnexpectedExpr
        "DeserializeRegister: expected default expr to have type") ∧
    DeserializeRegister.eval noParse
        { reg := 5, tpe := SType.SInt, default := some exprIntOne } envNil
        (ctxWith (.ok none)) =
      Except.ok (Value.int 1) := by
  refine ⟨rfl, ?_, ?_⟩
  · exact (deserialize_register_default_path
      { reg := 5, tpe := SType.SInt, default := some exprBoolTrue } envNil
      (ctxWith (.error "storage failure")) 5 noParse (by decide)
      (Or.inr ⟨"storage failure", rfl⟩)).2.1 exprBoolTrue rfl (by decide)
  · exact ((deserialize_register_default_path
      { reg := 5, tpe := SType.SInt, default := some exprIntOne } envNil
      (ctxWith (.ok none)) 5 noParse (by decide)
      (Or.inl rfl)).2.2 exprIntOne rfl rfl).trans rfl

/-- C4: with an out-of-range register index, both register-reading nodes
fail with RegisterIdOutOfBounds; the conclusion holds for every context,
box and parser collaborator, so the box get_register function is never
consulted. -/
theorem register_index_out_of_bounds
    (sd : DeserializeRegister) (se : ExtractRegisterAs)
    (env : Env) (ctx : EvalContext) (b : ErgoBox)
    (hd : RegisterId.tryFrom sd.reg = none)
    (he : RegisterId.tryFrom se.register_id = none)
    (hin : se.input.eval env ctx = Except.ok (Value.box b)) :
    (∀ parseBytes, DeserializeRegister.eval parseBytes sd env ctx =
      Except.error (EvalError.RegisterIdOutOfBounds
        "register index is out of bounds")) ∧
    ExtractRegisterAs.eval se env ctx =
      Except.error (EvalError.RegisterIdOutOfBounds
        "register index is out of bounds") := by
  constructor
  · intro parseBytes
    unfold DeserializeRegister.eval
    simp only [hd]
  · unfold ExtractRegisterAs.eval
    simp [hin, Value.tryExtractBox, he]

theorem register_index_out_of_bounds_witness :
    DeserializeRegister.eval noParse
        { reg := 10, tpe := SType.SBoolean, default := none } envNil
        (ctxWith (.ok none)) =
      Except.error (EvalError.RegisterIdOutOfBounds
        "register index is out of bounds") ∧
    ExtractRegisterAs.eval
        { input := { tpe := SType.SBox,
                     eval := fun _ _ => .ok (.box (boxConst (.ok none))) },
          register_id := -1, elem_tpe := SType.SInt } envNil
        (ctxWith (.ok none)) =
      Except.error (EvalError.RegisterIdOutOfBounds
        "register index is out of bounds") :=
  have h := register_index_out_of_bounds
    { reg := 10, tpe := SType.SBoolean, default := none }
    { input := { tpe := SType.SBox,
                 eval := fun _ _ => .ok (.box (boxConst (.ok none))) },
      register_id := -1, elem_tpe := SType.SInt } envNil
    (ctxWith (.ok none)) (boxConst (.ok none))
    (by decide) (by decide) rfl
  ⟨h.1 noParse, h.2⟩

/-- Deserialize node with an SInt declared type whose default expression
has type SBoolean (a mismatch), used to exhibit the present-register
behavior of the default type check. -/
def dsMismatchedDefault : DeserializeRegister :=
  { reg := 4, tpe := SType.SInt, default := some exprBoolTrue }

/-- Context whose self box holds, in every register, a byte-sequence
Constant. -/
def ctxByteReg : EvalContext :=
  ctxWith (.ok (some
    (Constant.mk (SType.SColl SType.SByte) (Value.byteColl [1]))))

/-- C5 counterexample: a node whose default expression type (SBoolean)
differs from the declared type (SInt), evaluated with the register
present and holding bytes that parse to an SInt expression, evaluates
successfully to 1 instead of failing with UnexpectedExpr: the default
type check does not run when the register is present. -/
theorem deserialize_register_default_mismatch_counterexample :
    dsMismatchedDefault.default = some exprBoolTrue ∧
    exprBoolTrue.tpe = SType.SBoolean ∧
    dsMismatchedDefault.tpe = SType.SInt ∧
    DeserializeRegister.eval parseIntOne dsMismatchedDefault envNil
      ctxByteReg = Except.ok (Value.int 1) :=
  ⟨rfl, rfl, rfl, rfl⟩

/-- C5 (amended): with a default whose static type differs from the
declared expected type, evaluation fails with UnexpectedExpr whenever the
register lookup yields absent (Ok none) or a box-level error, the same
check in both cases; when the register is present with a well-typed,
parseable payload of the declared type, the default is not consulted and
evaluation returns the parsed expression result. -/
theorem deserialize_register_default_mismatch_amended
    (s : DeserializeRegister) (env : Env) (ctx : EvalContext)
    (id : Nat) (d : Expr) (parseBytes : List Int → Except String Expr)
    (hid : RegisterId.tryFrom s.reg = some id)
    (hd : s.default = some d)
    (hne : d.tpe ≠ s.tpe) :
    (ctx.ctx.self_box.get_register id = Except.ok none →
      DeserializeRegister.eval parseBytes s env ctx =
        Except.error (EvalError.UnexpectedExpr
          "DeserializeRegister: expected default expr to have type")) ∧
    (∀ err, ctx.ctx.self_box.get_register id = Except.error err →
      DeserializeRegister.eval parseBytes s env ctx =
        Except.error (EvalError.UnexpectedExpr
          "DeserializeRegister: expected default expr to have type")) ∧
    (∀ c bs e, ctx.ctx.self_box.get_register id = Except.ok (some c) →
      c.tpe = SType.SColl SType.SByte → c.v = Value.byteColl bs →
      parseBytes bs = Except.ok e → e.tpe = s.tpe →
      DeserializeRegister.eval parseBytes s env ctx = e.eval env ctx) := by
  refine ⟨fun hmiss => ?_, fun err hmiss => ?_,
    fun c bs e hreg htpe hv hparse het => ?_⟩ <;>
      unfold DeserializeRegister.eval
  · simp [hid, hmiss, hd, eval_default, hne]
  · simp [hid, hmiss, hd, eval_default, hne]
  · simp [hid, hreg, htpe, Value.tryExtractBytes, hv, hparse, het]

theorem deserialize_register_default_mismatch_amended_witness :
    DeserializeRegister.eval parseIntOne dsMismatchedDefault envNil
      (ctxWith (.ok none)) =
      Except.error (EvalError.UnexpectedExpr
        "DeserializeRegister: expected default expr to have type") ∧
    DeserializeRegister.eval parseIntOne dsMismatchedDefault envNil
      (ctxWith (.error "storage failure")) =
      Except.error (EvalError.UnexpectedExpr
        "DeserializeRegister: expected default expr to have type") ∧
    DeserializeRegister.eval parseIntOne dsMismatchedDefault envNil
      ctxByteReg = Except.ok (Value.int 1) :=
  ⟨(deserialize_register_default_mismatch_amended dsMismatchedDefault
      envNil (ctxWith (.ok none)) 4 exprBoolTrue parseIntOne
      (by decide) rfl (by decide)).1 rfl,
   (deserialize_register_default_mismatch_amended dsMismatchedDefault
      envNil (ctxWith (.error "storage failure")) 4 exprBoolTrue
      parseIntOne (by decide) rfl (by decide)).2.1 "storage failure" rfl,
   ((deserialize_register_default_mismatch_amended dsMismatchedDefault
      envNil ctxByteReg 4 exprBoolTrue parseIntOne
      (by decide) rfl (by decide)).2.2
      (Constant.mk (SType.SColl SType.SByte) (Value.byteColl [1]))
      [1] exprIntOne rfl rfl rfl rfl rfl).trans rfl⟩

/-- C6: ExtractRegisterAs with an in-range index over a box: a box-level
lookup error becomes NotFound; an empty register yields the optional value
none without error; a present register yields some of the Constant value. -/
theorem extract_register_as_cases
    (s : ExtractRegisterAs) (env : Env) (ctx : EvalContext)
    (b : ErgoBox) (id : Nat)
    (hin : s.input.eval env ctx = Except.ok (Value.box b))
    (hid : RegisterId.tryFrom s.register_id = some id) :
    (∀ err, b.get_register id = Except.error err →
      ExtractRegisterAs.eval s env ctx =
        Except.error (EvalError.NotFound "Error getting the register id")) ∧
    (b.get_register id = Except.ok none →
      ExtractRegisterAs.eval s env ctx = Except.ok (Value.opt none)) ∧
    (∀ c, b.get_register id = Except.ok (some c) →
      ExtractRegisterAs.eval s env ctx =
        Except.ok (Value.opt (some c.v))) := by
  refine ⟨fun err hreg => ?_, fun hreg => ?_, fun c hreg => ?_⟩ <;>
    · unfold ExtractRegisterAs.eval
      simp [hin, Value.tryExtractBox, hid, hreg]

theorem extract_register_as_cases_witness :
    ExtractRegisterAs.eval
      { input := { tpe := SType.SBox,
                   eval := fun _ _ => .ok (.box (boxConst (.error "fail"))) },
        register_id := 0, elem_tpe := SType.SLong } envNil
      (ctxWith (.ok none)) =
      Except.error (EvalError.NotFound "Error getting the register id") ∧
    ExtractRegisterAs.eval
      { input := { tpe := SType.SBox,
                   eval := fun _ _ => .ok (.box (boxConst (.ok none))) },
        register_id := 0, elem_tpe := SType.SLong } envNil
      (ctxWith (.ok none)) = Except.ok (Value.opt none) ∧
    ExtractRegisterAs.eval
      { input := { tpe := SType.SBox,
                   eval := fun _ _ => .ok (.box (boxConst
                     (.ok (some (Constant.mk SType.SLong (Value.long 7)))))) },
        register_id := 0, elem_tpe := SType.SLong } envNil
      (ctxWith (.ok none)) = Except.ok (Value.opt (some (Value.long 7))) :=
  ⟨(extract_register_as_cases
      { input := { tpe := SType.SBox,
                   eval := fun _ _ => .ok (.box (boxConst (.error "fail"))) },
        register_id := 0, elem_tpe := SType.SLong } envNil
      (ctxWith (.ok none)) (boxConst (.error "fail")) 0
      rfl (by decide)).1 "fail" rfl,
   (extract_register_as_cases
      { input := { tpe := SType.SBox,
                   eval := fun _ _ => .ok (.box (boxConst (.ok none))) },
        register_id := 0, elem_tpe := SType.SLong } envNil
      (ctxWith (.ok none)) (boxConst (.ok none)) 0
      rfl (by decide)).2.1 rfl,
   (extract_register_as_cases
      { input := { tpe := SType.SBox,
                   eval := fun _ _ => .ok (.box (boxConst
                     (.ok (some (Constant.mk SType.SLong (Value.long 7)))))) },
        register_id := 0, elem_tpe := SType.SLong } envNil
      (ctxWith (.ok none))
      (boxConst (.ok (some (Constant.mk SType.SLong (Value.long 7))))) 0
      rfl (by decide)).2.2 (Constant.mk SType.SLong (Value.long 7)) rfl⟩

/-- C7: SigmaByteReader::new constructs a reader in preserve mode and
SigmaByteReader::new_with_substitute_placeholders constructs one in
substitute mode; both start with a fresh, empty ValDefTypeStore. -/
theorem sigma_byte_reader_new_modes :
    ∀ (R : Type) (pr : R) (cs : ConstantStore),
      (SigmaByteReader.new pr cs).substitute_placeholders = false ∧
      (SigmaByteReader.new pr cs).val_def_type_store = ValDefTypeStore.new ∧
      (SigmaByteReader.new pr cs).constant_store = cs ∧
      (SigmaByteReader.new_with_substitute_placeholders
        pr cs).substitute_placeholders = true ∧
      (SigmaByteReader.new_with_substitute_placeholders
        pr cs).val_def_type_store = ValDefTypeStore.new ∧
      (SigmaByteReader.new_with_substitute_placeholders
        pr cs).constant_store = cs ∧
      ValDefTypeStore.new.store = [] :=
  fun _ _ _ => ⟨rfl, rfl, rfl, rfl, rfl, rfl, rfl⟩

/-- C9: set_constant_store replaces only the constant store field; the
substitution mode flag, the ValDefTypeStore and the underlying byte source
are unchanged. -/
theorem sigma_byte_reader_set_constant_store_frame :
    ∀ (R : Type) (r : SigmaByteReader R) (cs : ConstantStore),
      (r.set_constant_store cs).constant_store = cs ∧
      (r.set_constant_store cs).substitute_placeholders =
        r.substitute_placeholders ∧
      (r.set_constant_store cs).val_def_type_store = r.val_def_type_store ∧
      (r.set_constant_store cs).inner = r.inner :=
  fun _ _ _ => ⟨rfl, rfl, rfl, rfl⟩

/-- C8 counterexample: op_code on a literal constant node is a todo macro
invocation in the source, i.e. a panic (modelled as none), and tpe on the
Context node likewise; so neither query is total over the Expr variants. -/
theorem ast_expr_todo_counterexample :
    Ast.Expr.op_code
      (Ast.Expr.const (Constant.mk SType.SInt (Value.int 1))) = none ∧
    Ast.Expr.tpe Ast.Expr.context = none :=
  ⟨rfl, rfl⟩

/-- C8 (amended): op_code returns a fixed opcode for the ConstPlaceholder,
GlobalVars, MethodCall, ProperyCall, Context, OptionGet,
ExtractRegisterAs and BinOp variants, independent of their operands, and
panics (todo, modelled as none) for Const, PredefFunc and Fold; tpe
returns the type carried by the Constant for a literal constant node and
panics (todo, modelled as none) for every other variant. -/
theorem ast_expr_op_code_tpe_amended :
    (∀ c, (Ast.Expr.const c).op_code = none ∧
      (Ast.Expr.const c).tpe = some c.tpe) ∧
    (∀ i t, (Ast.Expr.constPlaceholder i t).op_code =
      some Ast.OpCode.CONSTANT_PLACEHOLDER) ∧
    (∀ v, (Ast.Expr.globalVars v).op_code = some v.op_code) ∧
    (∀ r m args, (Ast.Expr.methodCall r m args).op_code =
      some Ast.OpCode.METHOD_CALL) ∧
    (∀ r p, (Ast.Expr.properyCall r p).op_code =
      some Ast.OpCode.PROPERTY_CALL) ∧
    (Ast.Expr.context.op_code = some Ast.OpCode.CONTEXT) ∧
    (∀ x, (Ast.Expr.optionGet x).op_code = some Ast.OpCode.OPTION_GET) ∧
    (∀ x i t, (Ast.Expr.extractRegisterAs x i t).op_code =
      some Ast.OpCode.EXTRACT_REGISTER_AS) ∧
    (∀ op l r, (Ast.Expr.binOp op l r).op_code = some op.op_code) ∧
    (∀ k args, (Ast.Expr.predefFunc k args).op_code = none) ∧
    (∀ x y z, (Ast.Expr.fold x y z).op_code = none) ∧
    (∀ e : Ast.Expr, (∀ c, e ≠ Ast.Expr.const c) → e.tpe = none) := by
  refine ⟨fun c => ⟨rfl, rfl⟩, fun i t => rfl, fun v => rfl,
    fun r m args => rfl, fun r p => rfl, rfl, fun x => rfl,
    fun x i t => rfl, fun op l r => rfl, fun k args => rfl,
    fun x y z => rfl, fun e he => ?_⟩
  cases e with
  | const c => exact absurd rfl (he c)
  | _ => rfl

theorem ast_expr_op_code_tpe_amended_witness :
    Ast.Expr.tpe (Ast.Expr.globalVars Ast.GlobalVars.height) = none :=
  ast_expr_op_code_tpe_amended.2.2.2.2.2.2.2.2.2.2.2
    (Ast.Expr.globalVars Ast.GlobalVars.height) (fun _ h => nomatch h)

/-- C10: calling the nipopow endpoint with min_chain_length 0 or
suffix_len 0 returns InvalidNumericalUrlSegment, uniformly in the network
collaborator and at every result type, so no URL is consumed and no
request is issued. -/
theorem get_nipopow_proof_zero_segment
    (min_chain_length : Nat) (suffix_len : Nat) (header_id : String)
    (h : min_chain_length = 0 ∨ suffix_len = 0) :
    ∀ (α : Type) (net : String → Except NodeError α),
      get_nipopow_proof_by_header_id net min_chain_length suffix_len
        header_id = Except.error NodeError.InvalidNumericalUrlSegment := by
  intro α net
  unfold get_nipopow_proof_by_header_id
  simp [h]

theorem get_nipopow_proof_zero_segment_witness :
    get_nipopow_proof_by_header_id
      (fun _ => (Except.ok 0 : Except NodeError Nat)) 0 4
      "9bcb535c" = Except.error NodeError.InvalidNumericalUrlSegment :=
  get_nipopow_proof_zero_segment 0 4 "9bcb535c" (Or.inl rfl) Nat
    (fun _ => Except.ok 0)
